import Mathlib

/-!
Verification of the agent-arcade session-supervision layer.

Shallow embedding of the Python sources:
* `agent_arcade/tmux_manager.py` — restart-guard shell (`_wrap_restart_command`)
  and pane-liveness query (`is_pane_dead`);
* `agent_arcade/cli.py` — top-level exit-code dispatch, signal handler and the
  pane-health monitor loop (`start_pane_monitor`);
* `agent_arcade/agents/codex.py` — transcript/session strategy, tmux-pane
  strategy and the `_set_idle` notification discipline;
* `agent_arcade/agents/generic.py` and `ai_arcade/ai_monitor.py` — pattern
  strategy with inactivity fallback;
* `agent_arcade/agents/claude_code.py` — sidecar state-file strategy.

Machine integers do not occur; times are modelled as rationals, shell
arithmetic (`date +%s` differences) as naturals.
-/

namespace AgentArcade

/-! ## Restart guard (`TmuxManager._wrap_restart_command`)

The generated shell is
`fast_count=0; while true; do clear; start=$(date +%s); CMD; end=$(date +%s);
runtime=$((end-start)); if [ $runtime -lt 5 ]; then fast_count=$((fast_count+1));
else fast_count=0; fi; if [ $fast_count -ge 2 ]; then
(write message when $AGENT_ARCADE_CRASH_FILE is non-empty); sleep 2;
tmux kill-session ...; exit 1; fi; sleep 1; done`.

We model one run of the loop over the list of integer-second runtimes of the
successive command iterations. -/

/-- The crash message interpolated into the guard shell
(`message = f"Exiting app because {crash_label} crashed. ..."`). -/
def crashMessage (label subject : String) : String :=
  "Exiting app because " ++ label ++ " crashed. This might happen if " ++
    subject ++ " is not installed or needs to be upgraded."

/-- One update of `fast_count`: incremented when the iteration's wall-clock
runtime (integer seconds) is below 5, reset to 0 otherwise. -/
def guardStep (fastCount runtime : Nat) : Nat :=
  if runtime < 5 then fastCount + 1 else 0

/-- Outcome of running the restart guard over a finite prefix of iterations:
either still looping with the current `fast_count`, or the session was torn
down (recording whatever was written to the crash side-channel file, whether
the session was killed, and the shell's exit code). -/
inductive GuardResult where
  | running (fastCount : Nat)
  | tornDown (crashWrite : Option String) (sessionKilled : Bool) (exitCode : Nat)
deriving DecidableEq, Repr

/-- Run the restart-guard loop: `crashFile` is the value of
`AGENT_ARCADE_CRASH_FILE` (`none` when no crash file was configured), `label`
and `subject` parameterize the crash message, `fastCount` the current counter,
and each list element the runtime of one iteration of the wrapped command. -/
def guardRun (crashFile : Option String) (label subject : String)
    (fastCount : Nat) : List Nat → GuardResult
  | [] => .running fastCount
  | r :: rest =>
    let c := guardStep fastCount r
    if 2 ≤ c then
      .tornDown (crashFile.map fun _ => crashMessage label subject) true 1
    else
      guardRun crashFile label subject c rest

/-- Spec-side reading of "the counter reaches the threshold 2 at some
iteration", computed directly by the counter recurrence of the claim. -/
def reachesThreshold (fastCount : Nat) : List Nat → Bool
  | [] => false
  | r :: rest =>
    let c := if r < 5 then fastCount + 1 else 0
    (2 ≤ c) || reachesThreshold c rest

/-- Is the outcome a teardown? -/
def GuardResult.isTornDown : GuardResult → Bool
  | .running _ => false
  | .tornDown _ _ _ => true

/-! ## Pane liveness (`TmuxManager.is_pane_dead`)

The query is `tmux list-panes -t SESSION:IDX -F #{pane_dead}` run through
`subprocess.run(..., check=True)`; the Python wraps it in
`try: ... return result.stdout.strip() == "1"
except subprocess.CalledProcessError: return False`. -/

/-- Outcome of the external liveness query: the process ran and produced
`stdout`, or it exited non-zero (`CalledProcessError`), or the binary was
missing (`FileNotFoundError`). -/
inductive QueryOutcome where
  | ok (stdout : String)
  | calledProcessError
  | fileNotFound
deriving DecidableEq, Repr

/-- Python `str.strip()`: drop whitespace from both ends (structural
implementation over the character list). -/
def strTrim (s : String) : String :=
  ⟨((s.data.dropWhile Char.isWhitespace).reverse.dropWhile
      Char.isWhitespace).reverse⟩

/-- `is_pane_dead`, as a function of the query outcome.  Only
`CalledProcessError` is caught; a `FileNotFoundError` propagates out of the
call, modelled as `Except.error ()`. -/
def is_pane_dead : QueryOutcome → Except Unit Bool
  | .ok out => .ok (strTrim out == "1")
  | .calledProcessError => .ok false
  | .fileNotFound => .error ()

/-! ## Top-level exit codes and signal handler (`agent_arcade/cli.py`)

`main` wraps everything in
`try: ... except KeyboardInterrupt: sys.exit(0)
except Exception: sys.exit(1)`; the normal path falls off the end of `main`
(exit code 0).  `signal_handler` (installed for SIGINT/SIGTERM) prints a
farewell, calls `cleanup()` (which calls `tmux.kill_session()`) and then
`sys.exit(0)`. -/

/-- The three ways the body of `main` can finish. -/
inductive MainOutcome where
  | normal
  | keyboardInterrupt
  | fatalError
deriving DecidableEq, Repr

/-- Exit code chosen by `main`'s exception dispatch. -/
def mainExitCode : MainOutcome → Nat
  | .normal => 0
  | .keyboardInterrupt => 0
  | .fatalError => 1

/-- Effect of one invocation of the installed signal handler. -/
structure HandlerResult where
  sessionKilled : Bool
  exitCode : Nat
deriving DecidableEq, Repr

/-- `signal_handler`: cleanup (kill the session) then `sys.exit(0)`. -/
def signalHandlerResult : HandlerResult := ⟨true, 0⟩

/-! ## Pane-health monitor (`cli.run_with_agent.start_pane_monitor`)

Each 1-second tick checks each of the two panes: if `is_pane_dead` reports the
pane dead, one relaunch is attempted (`launch_ai_agent` / `launch_game_runner`);
an exception from the relaunch increments the pane's failure counter, a
successful relaunch or a non-dead observation resets it to 0.  If either
counter is `>= 3` the loop raises, which is caught by the surrounding
`except`: it kills the session and calls `sys.exit(1)`. -/

/-- What one tick observes about one pane. -/
inductive PaneObs where
  | alive
  | deadRelaunchOk
  | deadRelaunchRaised
deriving DecidableEq, Repr

/-- Per-pane failure-counter update of one tick. -/
def paneFailStep (failures : Nat) : PaneObs → Nat
  | .alive => 0
  | .deadRelaunchOk => 0
  | .deadRelaunchRaised => failures + 1

/-- State of the pane-health loop: the two consecutive-failure counters. -/
structure PaneMonState where
  aiFailures : Nat
  gameFailures : Nat
deriving DecidableEq, Repr

/-- Result of one tick of the pane-health loop. -/
inductive TickResult where
  | next (s : PaneMonState)
  | fatal (sessionKilled : Bool) (exitCode : Nat)
deriving DecidableEq, Repr

/-- One tick of the monitor: update both counters from this tick's
observations, then escalate when either counter reached 3. -/
def paneMonitorTick (s : PaneMonState) (ai game : PaneObs) : TickResult :=
  let a := paneFailStep s.aiFailures ai
  let g := paneFailStep s.gameFailures game
  if 3 ≤ a ∨ 3 ≤ g then .fatal true 1
  else .next ⟨a, g⟩

/-- Run the pane-health loop over a list of per-tick observation pairs,
stopping at the first fatal escalation. -/
def paneMonitorRun (s : PaneMonState) : List (PaneObs × PaneObs) → TickResult
  | [] => .next s
  | o :: rest =>
    match paneMonitorTick s o.1 o.2 with
    | .fatal k e => .fatal k e
    | .next s' => paneMonitorRun s' rest

/-! ## Codex agent (`agent_arcade/agents/codex.py`)

The marker sets of `CodexAgent`, verbatim. -/

namespace Codex

def SESSION_TURN_START_EVENTS : List String :=
  ["turn/started", "item/started", "thread/started"]

def SESSION_TURN_END_EVENTS : List String :=
  ["turn/completed", "item/completed", "turn_aborted"]

def SESSION_ACTIVE_EVENT_TYPES : List String :=
  ["agent_reasoning", "agent_message", "command_execution", "tool_call", "tool"]

def SESSION_RESPONSE_ITEM_TYPES : List String :=
  ["reasoning", "message", "function_call", "function_call_output",
   "custom_tool_call", "custom_tool_call_output", "tool_call",
   "tool_call_output"]

/-- One JSON line of the session transcript after decoding:
`type = entry.get("type")` and `payloadType = entry.get("payload", {}).get("type")`,
each `none` when absent or not the expected shape. -/
structure SessionEntry where
  type : Option String
  payloadType : Option String
deriving DecidableEq, Repr

/-- Classification of one decoded entry by `_monitor_session`'s `if`/`elif`
chain: first component is "sets `active_seen` (and refreshes
`_session_last_activity`)", second is "sets `idle_seen`". -/
def sessionEntryMarks (e : SessionEntry) : Bool × Bool :=
  if e.type = some "event_msg" then
    match e.payloadType with
    | some pt =>
      if pt ∈ SESSION_TURN_START_EVENTS then (true, false)
      else if pt ∈ SESSION_TURN_END_EVENTS then (false, true)
      else if pt ∈ SESSION_ACTIVE_EVENT_TYPES then (true, false)
      else (false, false)
    | none => (false, false)
  else if e.type = some "response_item" then
    match e.payloadType with
    | some pt =>
      if pt ∈ SESSION_RESPONSE_ITEM_TYPES then (true, false)
      else (false, false)
    | none => (false, false)
  else (false, false)

/-- `(active_seen, idle_seen)` after folding a whole poll batch. -/
def sessionBatchScan (batch : List SessionEntry) : Bool × Bool :=
  batch.foldl
    (fun acc e =>
      let m := sessionEntryMarks e
      (acc.1 || m.1, acc.2 || m.2))
    (false, false)

/-- Detection state carried across polls of `_monitor_session`:
`_is_idle` and `_session_last_activity`. -/
structure SessionMonState where
  isIdle : Bool
  lastActivity : ℚ
deriving DecidableEq, Repr

/-- The classification part of one `_monitor_session` poll: fold the batch,
apply the `idle_seen and not active_seen` / `active_seen` decision, then the
2-second inactivity override (`self.inactivity_timeout = 2.0`).  Folding any
active entry sets `_session_last_activity = now`. -/
def monitorSessionClassify (now : ℚ) (s : SessionMonState)
    (batch : List SessionEntry) : SessionMonState :=
  let scan := sessionBatchScan batch
  let activeSeen := scan.1
  let idleSeen := scan.2
  let lastAct := if activeSeen then now else s.lastActivity
  let idle1 :=
    if idleSeen && !activeSeen then true
    else if activeSeen then false
    else s.isIdle
  let idle2 := if !idle1 && 2 ≤ now - lastAct then true else idle1
  ⟨idle2, lastAct⟩

/-! ### Session-file offset tracking (`_monitor_session`, file part)

`session_file` is the most recently modified `rollout-*.jsonl`; when it is a
different file than last poll the offset jumps to that file's current size,
when the same file shrank the offset resets to 0, and new bytes `[pos, size)`
are read, leaving the offset at `size`. -/

/-- Offset-tracking state: `_session_file` and `_session_last_position`. -/
structure SessState where
  file : Option String
  pos : Nat
deriving DecidableEq, Repr

/-- One poll's file handling: input is the most recently modified session file
(path and current byte size).  Returns the new state and the byte range
`[lo, hi)` read this poll, if any. -/
def sessStep (s : SessState) (latest : Option (String × Nat)) :
    SessState × Option (Nat × Nat) :=
  match latest with
  | none => (s, none)
  | some (f, size) =>
    let pos0 := if some f = s.file then s.pos else size
    let pos1 := if size < pos0 then 0 else pos0
    if pos1 < size then (⟨some f, size⟩, some (pos1, size))
    else (⟨some f, pos1⟩, none)

/-! ### Idle-state notification (`_set_idle`)

`if is_idle != self._is_idle: self._is_idle = is_idle;
 if self.on_state_change: self.on_state_change(self._is_idle)`.
The same compare-and-notify pattern appears inline in
`GenericAgent._monitor_loop` and `ClaudeCodeAgent._monitor_state_file`. -/

/-- Iterate `_set_idle` over the sequence of per-poll detected states,
collecting the arguments of every `on_state_change` invocation in order. -/
def runSetIdle (st : Bool) : List Bool → Bool × List Bool
  | [] => (st, [])
  | b :: rest =>
    if b ≠ st then
      let r := runSetIdle b rest
      (r.1, b :: r.2)
    else runSetIdle st rest

/-- Spec-side count of actual Idle↔Active transitions of the detected-state
sequence `init, obs₀, obs₁, …`. -/
def numTransitions (init : Bool) (obs : List Bool) : Nat :=
  ((init :: obs).zip obs).countP fun p => p.1 ≠ p.2

/-- Spec-side list of post-transition states, in order. -/
def transitionTargets (init : Bool) (obs : List Bool) : List Bool :=
  (((init :: obs).zip obs).filter fun p => p.1 ≠ p.2).map Prod.snd

/-! ### Pane-text source (`_monitor_tmux_output`)

Poll order inside `_monitor_activity` is pane text first; the pane source
claims the poll (returns `True`) whenever the pane was queryable and captured.
`ESC_INTERRUPT_MARKER = "esc to interrupt"` is searched in the
ANSI-stripped, lower-cased capture. -/

/-- Does the character list begin with the pattern? -/
def charsStartWith : List Char → List Char → Bool
  | _, [] => true
  | [], _ :: _ => false
  | a :: as, b :: bs => a == b && charsStartWith as bs

/-- Does the character list contain the pattern as a contiguous run? -/
def charsContain : List Char → List Char → Bool
  | [], pat => pat.isEmpty
  | a :: as, pat => charsStartWith (a :: as) pat || charsContain as pat

/-- Substring test (Python `in` on strings). -/
def containsSub (s pat : String) : Bool := charsContain s.data pat.data

/-- Python `str.lower()` (structural implementation over the character
list). -/
def strLower (s : String) : String := ⟨s.data.map Char.toLower⟩

/-- State of the pane-text source. -/
structure TmuxMonState where
  isIdle : Bool
  markerSeen : Bool
  missingSince : Option ℚ
  lastActivity : ℚ
  lastOutput : String
deriving DecidableEq, Repr

/-- What one poll of the pane-text source observes. -/
inductive TmuxObs where
  | noTmux
  | deadQueryRaised
  | paneDead
  | captureFailed
  | captured (output : String)
deriving DecidableEq, Repr

/-- One poll of `_monitor_tmux_output`.  `stripAnsi` stands for
`ANSI_ESCAPE.sub('', ·)`; `inactivity_timeout` is the instance constant 2.0.
Returns the new state and whether the source claimed the poll. -/
def monitorTmuxStep (stripAnsi : String → String) (now : ℚ)
    (s : TmuxMonState) (obs : TmuxObs) : TmuxMonState × Bool :=
  match obs with
  | .noTmux => (s, false)
  | .deadQueryRaised => (s, false)
  | .paneDead => (s, false)
  | .captureFailed => (s, false)
  | .captured output =>
    let s1 := { s with lastOutput := output }
    let clean := strLower (stripAnsi output)
    if containsSub clean "esc to interrupt" then
      ({ s1 with lastActivity := now, markerSeen := true,
                 missingSince := none, isIdle := false }, true)
    else if s.markerSeen then
      match s.missingSince with
      | none => ({ s1 with missingSince := some now }, true)
      | some t =>
        if 2 ≤ now - t then
          ({ s1 with markerSeen := false, isIdle := true }, true)
        else (s1, true)
    else
      ({ s1 with isIdle := true }, true)

end Codex

/-! ## Pattern strategy (`agents/base.py check_ready`,
`agents/generic.py _monitor_loop`, `ai_arcade/ai_monitor.py _monitor_loop`)

A compiled ready-pattern is embedded as its source string together with its
`re.search` test on a given text. -/

/-- `AgentStatus` of `agents/base.py` (readiness flag, confidence in `[0,1]`,
the pattern that matched). -/
structure AgentStatus where
  isReady : Bool
  confidence : ℚ
  matchedPattern : String
deriving DecidableEq, Repr

/-- `BaseAgent.check_ready`: first pattern whose search succeeds gives
readiness with confidence 1.0; no match gives confidence 0.0. -/
def check_ready (patterns : List (String × (String → Bool)))
    (output : String) : AgentStatus :=
  match patterns.find? fun p => p.2 output with
  | some p => ⟨true, 1, p.1⟩
  | none => ⟨false, 0, ""⟩

/-- State shared by both pattern-strategy loops: `_last_output`,
`_last_change_time`, and the current idle/ready flag. -/
structure PatternMonState where
  lastOutput : String
  lastChangeTime : ℚ
  isIdle : Bool
deriving DecidableEq, Repr

/-- One poll of `GenericAgent._monitor_loop`: snapshot change detection on the
raw capture, ANSI stripping (`stripAnsi`), `check_ready` on the cleaned text,
then the hardcoded 2.0-second inactivity fallback. -/
def genericMonitorStep (stripAnsi : String → String)
    (patterns : List (String × (String → Bool))) (now : ℚ)
    (s : PatternMonState) (output : String) : PatternMonState :=
  let lastChangeTime := if output ≠ s.lastOutput then now else s.lastChangeTime
  let clean := stripAnsi output
  let status := check_ready patterns clean
  let isIdle0 := status.isReady
  let isIdle :=
    if !isIdle0 && 2 ≤ now - lastChangeTime then true else isIdle0
  ⟨output, lastChangeTime, isIdle⟩

/-- One poll of `AIMonitor._monitor_loop` (`ai_arcade/ai_monitor.py`): same
shape, no ANSI stripping, configurable `inactivity_timeout` (default 2.0), and
the fallback rewrites the status to
`is_ready=True, confidence=0.7, matched_pattern="inactivity_timeout"`.
Returns the new state and the status that drove it. -/
def aiMonitorStep (patterns : List (String × (String → Bool)))
    (inactivityTimeout : ℚ) (now : ℚ) (s : PatternMonState)
    (output : String) : PatternMonState × AgentStatus :=
  let lastChangeTime := if output ≠ s.lastOutput then now else s.lastChangeTime
  let status0 := check_ready patterns output
  let status :=
    if !status0.isReady && inactivityTimeout ≤ now - lastChangeTime then
      ⟨true, 7 / 10, "inactivity_timeout"⟩
    else status0
  (⟨output, lastChangeTime, status.isReady⟩, status)

/-! ## Sidecar state-file strategy (`agents/claude_code.py`)

`_monitor_state_file` polls `/tmp/claude_arcade_state.json`: stat the mtime,
re-read only when it differs from `_last_mtime`, `json.loads` the content
(decode errors ignored), `data.get("state", "idle") == "idle"` decides
idleness. -/

namespace ClaudeCode

/-- A JSON value found at the `"state"` key: a string, or something of another
JSON type. -/
inductive JVal where
  | str (s : String)
  | other
deriving DecidableEq, Repr

/-- `data.get("state", "idle") == "idle"`: missing key defaults to `"idle"`
(hence idle); a non-string value never equals `"idle"`. -/
def stateValIdle : Option JVal → Bool
  | some (.str v) => v == "idle"
  | some .other => false
  | none => true

/-- One observation of the state file: its mtime and the result of parsing its
content (`Except.error` for malformed JSON, otherwise the value at the
`"state"` key, if present). -/
structure FileObs where
  mtime : ℚ
  parsed : Except Unit (Option JVal)
deriving Repr

/-- Monitor state: `_last_mtime` and `_is_idle`. -/
structure ClaudeMonState where
  lastMtime : ℚ
  isIdle : Bool
deriving DecidableEq, Repr

/-- One poll of `_monitor_state_file`; `none` means the file does not exist. -/
def monitorStateFileStep (s : ClaudeMonState) (obs : Option FileObs) :
    ClaudeMonState :=
  match obs with
  | none => s
  | some o =>
    if o.mtime ≠ s.lastMtime then
      match o.parsed with
      | .error _ => { s with lastMtime := o.mtime }
      | .ok stateVal => ⟨o.mtime, stateValIdle stateVal⟩
    else s

end ClaudeCode

/-! ## Theorems -/

theorem crashMessage_length_pos (label subject : String) :
    0 < (crashMessage label subject).length := by
  have h : ("Exiting app because " : String).length = 20 := rfl
  simp only [crashMessage, String.length_append, h]
  omega

theorem guardRun_isTornDown_eq (cf : Option String) (label subject : String) :
    ∀ (rs : List Nat) (fc : Nat),
      (guardRun cf label subject fc rs).isTornDown = reachesThreshold fc rs := by
  intro rs
  induction rs with
  | nil => intro fc; rfl
  | cons r rest ih =>
    intro fc
    simp only [guardRun, reachesThreshold, guardStep]
    by_cases h : 2 ≤ if r < 5 then fc + 1 else 0
    · simp [h, GuardResult.isTornDown]
    · simp only [if_neg h, decide_eq_false h, Bool.false_or]
      exact ih _

theorem guardRun_tornDown_inv (cf : Option String) (label subject : String) :
    ∀ (rs : List Nat) (fc : Nat) (w : Option String) (k : Bool) (e : Nat),
      guardRun cf label subject fc rs = .tornDown w k e →
      w = cf.map (fun _ => crashMessage label subject) ∧ k = true ∧ e = 1 := by
  intro rs
  induction rs with
  | nil => intro fc w k e h; exact absurd h (by simp [guardRun])
  | cons r rest ih =>
    intro fc w k e h
    rw [guardRun] at h
    by_cases h2 : 2 ≤ guardStep fc r
    · rw [if_pos h2] at h
      injection h with h1 h2 h3
      exact ⟨h1.symm, h2.symm, h3.symm⟩
    · rw [if_neg h2] at h
      exact ih _ w k e h

theorem guardRun_slow (cf : Option String) (label subject : String) :
    ∀ (rs : List Nat), (∀ r ∈ rs, 5 ≤ r) →
      guardRun cf label subject 0 rs = .running 0 := by
  intro rs
  induction rs with
  | nil => intro _; rfl
  | cons r rest ih =>
    intro h
    have hr : ¬ r < 5 := by
      have := h r (List.mem_cons_self r rest)
      omega
    rw [guardRun]
    simp only [guardStep, if_neg hr]
    rw [if_neg (by omega)]
    exact ih fun x hx => h x (List.mem_cons_of_mem r hx)

/-- C1: for every command wrapped by the restart guard, the fast-exit counter
after an iteration is the previous counter plus one when the iteration's
wall-clock runtime was under 5 seconds and 0 otherwise; teardown happens
exactly when that counter reaches the threshold 2, and a teardown with a
configured side-channel file writes the non-empty crash message, kills the
session and exits with the non-zero code 1; an execution in which every
iteration runs at least 5 seconds never triggers teardown, no matter how many
iterations occur. -/
theorem guard_crash_loop (crashPath label subject : String) (rs : List Nat) :
    (∀ c r, guardStep c r = if r < 5 then c + 1 else 0) ∧
    (∀ cf fc, (guardRun cf label subject fc rs).isTornDown =
      reachesThreshold fc rs) ∧
    (∀ fc w k e, guardRun (some crashPath) label subject fc rs =
        .tornDown w k e →
      w = some (crashMessage label subject) ∧
      0 < (crashMessage label subject).length ∧ k = true ∧ e = 1 ∧ e ≠ 0) ∧
    (∀ cf, (∀ r ∈ rs, 5 ≤ r) → guardRun cf label subject 0 rs = .running 0) := by
  refine ⟨fun c r => rfl, fun cf fc => guardRun_isTornDown_eq cf label subject rs fc,
    ?_, fun cf h => guardRun_slow cf label subject rs h⟩
  intro fc w k e h
  obtain ⟨hw, hk, he⟩ := guardRun_tornDown_inv (some crashPath) label subject rs fc w k e h
  exact ⟨hw, crashMessage_length_pos label subject, hk, by omega, by omega⟩

theorem guard_crash_loop_witness :
    guardRun (some "/tmp/crash.txt") "Codex" "codex" 0 [1, 2] =
      .tornDown (some (crashMessage "Codex" "codex")) true 1 ∧
    guardRun (some "/tmp/crash.txt") "Codex" "codex" 0 [7, 9, 12] =
      .running 0 ∧ (1 : Nat) ≠ 0 := by
  refine ⟨?_, ?_, ?_⟩
  · have h := (guard_crash_loop "/tmp/crash.txt" "Codex" "codex" [1, 2]).2.2.1
      0 (some (crashMessage "Codex" "codex")) true 1 rfl
    rfl
  · exact (guard_crash_loop "/tmp/crash.txt" "Codex" "codex" [7, 9, 12]).2.2.2
      (some "/tmp/crash.txt") (by decide)
  · have h := (guard_crash_loop "/tmp/crash.txt" "Codex" "codex" [1, 2]).2.2.1
      0 (some (crashMessage "Codex" "codex")) true 1 rfl
    exact h.2.2.2.2

/-- C2: in the pane-health loop a pane's failure counter increments exactly
when a relaunch attempt for a dead pane raises and resets to 0 on a successful
relaunch or on any non-dead observation; when either counter reaches 3 the
tick kills the session and exits with the non-zero code 1; below the
threshold the loop continues with the updated counters, and three consecutive
failed relaunches of the AI pane from a healthy start are fatal. -/
theorem pane_health_monitor (s : PaneMonState) (ai game : PaneObs) (f : Nat) :
    (paneFailStep f .deadRelaunchRaised = f + 1) ∧
    (paneFailStep f .deadRelaunchOk = 0) ∧
    (paneFailStep f .alive = 0) ∧
    (3 ≤ paneFailStep s.aiFailures ai ∨ 3 ≤ paneFailStep s.gameFailures game →
      paneMonitorTick s ai game = .fatal true 1) ∧
    (paneFailStep s.aiFailures ai < 3 → paneFailStep s.gameFailures game < 3 →
      paneMonitorTick s ai game =
        .next ⟨paneFailStep s.aiFailures ai, paneFailStep s.gameFailures game⟩) ∧
    (∀ tail, paneMonitorRun ⟨0, 0⟩
      ((.deadRelaunchRaised, .alive) :: (.deadRelaunchRaised, .alive) ::
        (.deadRelaunchRaised, .alive) :: tail) = .fatal true 1) := by
  refine ⟨rfl, rfl, rfl, ?_, ?_, fun tail => rfl⟩
  · intro h
    rw [paneMonitorTick]
    exact if_pos h
  · intro ha hg
    rw [paneMonitorTick]
    exact if_neg (by omega)

theorem pane_health_monitor_witness :
    paneMonitorTick ⟨2, 0⟩ .deadRelaunchRaised .alive = .fatal true 1 ∧
    paneMonitorTick ⟨2, 0⟩ .deadRelaunchOk .alive = .next ⟨0, 0⟩ := by
  constructor
  · exact (pane_health_monitor ⟨2, 0⟩ .deadRelaunchRaised .alive 0).2.2.2.1
      (by decide)
  · exact (pane_health_monitor ⟨2, 0⟩ .deadRelaunchOk .alive 0).2.2.2.2.1
      (by decide) (by decide)

theorem sessionBatchScan_foldl (batch : List Codex.SessionEntry) :
    ∀ acc : Bool × Bool,
      batch.foldl
        (fun acc e =>
          let m := Codex.sessionEntryMarks e
          (acc.1 || m.1, acc.2 || m.2)) acc =
      (acc.1 || batch.any fun e => (Codex.sessionEntryMarks e).1,
       acc.2 || batch.any fun e => (Codex.sessionEntryMarks e).2) := by
  induction batch with
  | nil => intro acc; simp
  | cons e rest ih =>
    intro acc
    simp only [List.foldl_cons, List.any_cons, ih, Bool.or_assoc]

theorem sessionBatchScan_eq (batch : List Codex.SessionEntry) :
    Codex.sessionBatchScan batch =
      (batch.any fun e => (Codex.sessionEntryMarks e).1,
       batch.any fun e => (Codex.sessionEntryMarks e).2) := by
  rw [Codex.sessionBatchScan, sessionBatchScan_foldl]
  simp

/-- C3: for every poll batch read by the transcript strategy, a batch holding
at least one turn-start or ongoing-activity marker yields the Active state
even when turn-end markers are present in the same batch, and a non-empty
batch holding only turn-end markers and no Active marker yields Idle. -/
theorem transcript_batch_priority (now : ℚ) (s : Codex.SessionMonState)
    (batch : List Codex.SessionEntry) :
    ((∃ e ∈ batch, (Codex.sessionEntryMarks e).1 = true) →
      (Codex.monitorSessionClassify now s batch).isIdle = false) ∧
    (batch ≠ [] → (∀ e ∈ batch, Codex.sessionEntryMarks e = (false, true)) →
      (Codex.monitorSessionClassify now s batch).isIdle = true) := by
  constructor
  · intro h
    have hact : (batch.any fun e => (Codex.sessionEntryMarks e).1) = true := by
      rw [List.any_eq_true]
      obtain ⟨e, he, hm⟩ := h
      exact ⟨e, he, hm⟩
    rw [Codex.monitorSessionClassify]
    simp only [sessionBatchScan_eq, hact]
    simp [sub_self]
  · intro hne hall
    have hact : (batch.any fun e => (Codex.sessionEntryMarks e).1) = false := by
      rw [List.any_eq_false]
      intro e he
      rw [hall e he]
      simp
    have hidle : (batch.any fun e => (Codex.sessionEntryMarks e).2) = true := by
      rw [List.any_eq_true]
      obtain ⟨e, he⟩ := List.exists_mem_of_ne_nil batch hne
      exact ⟨e, he, by rw [hall e he]⟩
    rw [Codex.monitorSessionClassify]
    simp only [sessionBatchScan_eq, hact, hidle]
    simp

theorem transcript_batch_priority_witness :
    (Codex.monitorSessionClassify 10 ⟨true, 0⟩
      [⟨some "event_msg", some "turn/started"⟩,
       ⟨some "event_msg", some "turn/completed"⟩]).isIdle = false ∧
    (Codex.monitorSessionClassify 10 ⟨false, 0⟩
      [⟨some "event_msg", some "turn/completed"⟩]).isIdle = true := by
  constructor
  · exact (transcript_batch_priority 10 ⟨true, 0⟩ _).1
      ⟨⟨some "event_msg", some "turn/started"⟩, by decide, by decide⟩
  · exact (transcript_batch_priority 10 ⟨false, 0⟩ _).2 (by decide) (by decide)

/-- C4: in the pattern strategy, a poll whose cleaned text matches no ready
pattern declares Idle exactly when the snapshot (byte-for-byte equality with
the previous poll's capture) has been unchanged for at least the inactivity
timeout, and Active otherwise; on that fallback path the `ai_arcade` monitor
reports confidence 0.7, strictly below the 1.0 of a direct pattern match. -/
theorem pattern_inactivity_fallback (stripAnsi : String → String)
    (patterns : List (String × (String → Bool))) (timeout now : ℚ)
    (s : PatternMonState) (output : String) :
    ((check_ready patterns (stripAnsi output)).isReady = false →
      output = s.lastOutput → 2 ≤ now - s.lastChangeTime →
      (genericMonitorStep stripAnsi patterns now s output).isIdle = true) ∧
    ((check_ready patterns (stripAnsi output)).isReady = false →
      output = s.lastOutput → now - s.lastChangeTime < 2 →
      (genericMonitorStep stripAnsi patterns now s output).isIdle = false) ∧
    ((check_ready patterns (stripAnsi output)).isReady = false →
      output ≠ s.lastOutput →
      (genericMonitorStep stripAnsi patterns now s output).isIdle = false) ∧
    ((check_ready patterns output).isReady = false →
      output = s.lastOutput → timeout ≤ now - s.lastChangeTime →
      (aiMonitorStep patterns timeout now s output).2 =
        ⟨true, 7 / 10, "inactivity_timeout"⟩) ∧
    ((check_ready patterns output).isReady = false →
      output = s.lastOutput → now - s.lastChangeTime < timeout →
      (aiMonitorStep patterns timeout now s output).2.isReady = false) ∧
    ((check_ready patterns output).isReady = false →
      output ≠ s.lastOutput → 0 < timeout →
      (aiMonitorStep patterns timeout now s output).2.isReady = false) ∧
    (∀ text, (check_ready patterns text).isReady = true →
      (check_ready patterns text).confidence = 1) ∧
    ((7 : ℚ) / 10 < 1) := by
  refine ⟨?_, ?_, ?_, ?_, ?_, ?_, ?_, by norm_num⟩
  · intro hm he ht
    subst he
    simp [genericMonitorStep, hm, ht]
  · intro hm he ht
    subst he
    simp [genericMonitorStep, hm, not_le.mpr ht]
  · intro hm hne
    simp [genericMonitorStep, hm, hne, sub_self]
  · intro hm he ht
    subst he
    simp [aiMonitorStep, hm, ht]
  · intro hm he ht
    subst he
    simp [aiMonitorStep, hm, not_le.mpr ht]
  · intro hm hne ht
    simp [aiMonitorStep, hm, hne, sub_self, not_le.mpr ht]
  · intro text hr
    rw [check_ready] at hr ⊢
    cases hfind : patterns.find? fun p => p.2 text with
    | none => rw [hfind] at hr; exact absurd hr (by simp)
    | some p => rfl

theorem pattern_inactivity_fallback_witness :
    (genericMonitorStep id [("ready", fun t => t == "ready")] 5
      ⟨"busy", 1, false⟩ "busy").isIdle = true ∧
    (genericMonitorStep id [("ready", fun t => t == "ready")] 5
      ⟨"busy", 4, false⟩ "busy").isIdle = false ∧
    (aiMonitorStep [("ready", fun t => t == "ready")] 2 5
      ⟨"busy", 1, false⟩ "busy").2 = ⟨true, 7 / 10, "inactivity_timeout"⟩ ∧
    (check_ready [("ready", fun t => t == "ready")] "ready").confidence = 1 := by
  refine ⟨?_, ?_, ?_, ?_⟩
  · exact (pattern_inactivity_fallback id [("ready", fun t => t == "ready")] 2 5
      ⟨"busy", 1, false⟩ "busy").1 rfl rfl (by norm_num)
  · exact (pattern_inactivity_fallback id [("ready", fun t => t == "ready")] 2 5
      ⟨"busy", 4, false⟩ "busy").2.1 rfl rfl (by norm_num)
  · exact (pattern_inactivity_fallback id [("ready", fun t => t == "ready")] 2 5
      ⟨"busy", 1, false⟩ "busy").2.2.2.1 rfl rfl (by norm_num)
  · exact (pattern_inactivity_fallback id [("ready", fun t => t == "ready")] 2 5
      ⟨"busy", 1, false⟩ "busy").2.2.2.2.2.2.1 "ready" rfl

/-- C5 counterexample: a `KeyboardInterrupt` reaching `main` is answered with
`sys.exit(0)`, not with exit code 130 as claimed. -/
theorem interrupt_exit_code_cx :
    mainExitCode MainOutcome.keyboardInterrupt = 0 ∧
    mainExitCode MainOutcome.keyboardInterrupt ≠ 130 := by
  exact ⟨rfl, by decide⟩

/-- C5 (amended): on a user interrupt the supervising process performs a clean
teardown (the signal handler kills the session) and terminates with exit
code 0 — the same code as a normal exit — while exit code 1 is used for fatal
conditions. -/
theorem interrupt_exit_codes :
    signalHandlerResult.sessionKilled = true ∧
    signalHandlerResult.exitCode = 0 ∧
    mainExitCode MainOutcome.keyboardInterrupt = 0 ∧
    mainExitCode MainOutcome.normal = 0 ∧
    mainExitCode MainOutcome.fatalError = 1 := by
  exact ⟨rfl, rfl, rfl, rfl, rfl⟩

/-- C6: in the sidecar state-file strategy, a poll re-parses the file only
when its mtime differs from the last observed mtime; malformed JSON leaves
the idle state unchanged; a parsed object lacking the `state` key defaults to
idle; otherwise the state is idle exactly when the `state` value equals the
string `"idle"`. -/
theorem state_file_poll (s : ClaudeCode.ClaudeMonState) (o : ClaudeCode.FileObs)
    (v : String) :
    (ClaudeCode.monitorStateFileStep s none = s) ∧
    (o.mtime = s.lastMtime → ClaudeCode.monitorStateFileStep s (some o) = s) ∧
    (o.mtime ≠ s.lastMtime → o.parsed = .error () →
      (ClaudeCode.monitorStateFileStep s (some o)).isIdle = s.isIdle) ∧
    (o.mtime ≠ s.lastMtime → o.parsed = .ok none →
      (ClaudeCode.monitorStateFileStep s (some o)).isIdle = true) ∧
    (o.mtime ≠ s.lastMtime → o.parsed = .ok (some (.str v)) →
      (ClaudeCode.monitorStateFileStep s (some o)).isIdle = (v == "idle")) ∧
    (o.mtime ≠ s.lastMtime → o.parsed = .ok (some .other) →
      (ClaudeCode.monitorStateFileStep s (some o)).isIdle = false) := by
  refine ⟨rfl, ?_, ?_, ?_, ?_, ?_⟩
  · intro h
    simp [ClaudeCode.monitorStateFileStep, h]
  · intro h hp
    simp [ClaudeCode.monitorStateFileStep, h, hp]
  · intro h hp
    simp [ClaudeCode.monitorStateFileStep, h, hp, ClaudeCode.stateValIdle]
  · intro h hp
    simp [ClaudeCode.monitorStateFileStep, h, hp, ClaudeCode.stateValIdle]
  · intro h hp
    simp [ClaudeCode.monitorStateFileStep, h, hp, ClaudeCode.stateValIdle]

theorem state_file_poll_witness :
    (ClaudeCode.monitorStateFileStep ⟨3, false⟩ (some ⟨3, .ok none⟩) =
      (⟨3, false⟩ : ClaudeCode.ClaudeMonState)) ∧
    (ClaudeCode.monitorStateFileStep ⟨3, false⟩
      (some ⟨4, .error ()⟩)).isIdle = false ∧
    (ClaudeCode.monitorStateFileStep ⟨3, false⟩
      (some ⟨4, .ok none⟩)).isIdle = true ∧
    (ClaudeCode.monitorStateFileStep ⟨3, false⟩
      (some ⟨4, .ok (some (.str "idle"))⟩)).isIdle = ("idle" == "idle") ∧
    (ClaudeCode.monitorStateFileStep ⟨3, true⟩
      (some ⟨4, .ok (some (.str "busy"))⟩)).isIdle = ("busy" == "idle") := by
  refine ⟨?_, ?_, ?_, ?_, ?_⟩
  · exact (state_file_poll ⟨3, false⟩ ⟨3, .ok none⟩ "x").2.1 rfl
  · exact (state_file_poll ⟨3, false⟩ ⟨4, .error ()⟩ "x").2.2.1
      (by norm_num) rfl
  · exact (state_file_poll ⟨3, false⟩ ⟨4, .ok none⟩ "x").2.2.2.1
      (by norm_num) rfl
  · exact (state_file_poll ⟨3, false⟩ ⟨4, .ok (some (.str "idle"))⟩
      "idle").2.2.2.2.1 (by norm_num) rfl
  · exact (state_file_poll ⟨3, true⟩ ⟨4, .ok (some (.str "busy"))⟩
      "busy").2.2.2.2.1 (by norm_num) rfl

theorem runSetIdle_calls_eq (obs : List Bool) :
    ∀ init : Bool,
      (Codex.runSetIdle init obs).2 = Codex.transitionTargets init obs := by
  induction obs with
  | nil => intro init; rfl
  | cons b rest ih =>
    intro init
    by_cases h : b = init
    · subst h
      simp [Codex.runSetIdle, Codex.transitionTargets, List.filter_cons, ih b]
    · have h' : ¬ init = b := fun hh => h hh.symm
      simp [Codex.runSetIdle, Codex.transitionTargets, List.filter_cons, h, h',
        ih b]

theorem runSetIdle_state_eq (obs : List Bool) :
    ∀ init : Bool, (Codex.runSetIdle init obs).1 = obs.getLastD init := by
  induction obs with
  | nil => intro init; rfl
  | cons b rest ih =>
    intro init
    rw [List.getLastD_cons]
    by_cases h : b = init
    · subst h
      have hr : Codex.runSetIdle b (b :: rest) = Codex.runSetIdle b rest := by
        simp [Codex.runSetIdle]
      rw [hr, ih b]
    · have hr : Codex.runSetIdle init (b :: rest) =
          ((Codex.runSetIdle b rest).1, b :: (Codex.runSetIdle b rest).2) := by
        simp [Codex.runSetIdle, h]
      rw [hr]
      exact ih b

theorem transitionTargets_length (init : Bool) (obs : List Bool) :
    (Codex.transitionTargets init obs).length = Codex.numTransitions init obs := by
  rw [Codex.transitionTargets, Codex.numTransitions, List.length_map,
    List.countP_eq_length_filter]

/-- C7: iterating the compare-and-notify discipline (`_set_idle` and its
inline twins) over any sequence of per-poll detected states invokes the
`on_state_change` callback exactly once per actual Idle↔Active transition of
the detected-state sequence — with exactly the post-transition values, in
order — and never on a poll that re-observes the previous state; the stored
state always ends at the last observation. -/
theorem on_state_change_per_transition (init : Bool) (obs : List Bool) :
    (Codex.runSetIdle init obs).2 = Codex.transitionTargets init obs ∧
    (Codex.runSetIdle init obs).2.length = Codex.numTransitions init obs ∧
    (Codex.runSetIdle init obs).1 = obs.getLastD init := by
  refine ⟨runSetIdle_calls_eq obs init, ?_, runSetIdle_state_eq obs init⟩
  rw [runSetIdle_calls_eq obs init, transitionTargets_length]

/-- C8: the transcript strategy's byte offset never decreases while reading
the same session file; when the file shrinks the offset resets to 0 and the
new bytes are re-scanned from the start; when the most recently modified
session file differs from last poll's, the offset jumps to the new file's
current end and nothing is read (no backfill). -/
theorem session_offset_policy (s : Codex.SessState) (f : String) (size : Nat) :
    (Codex.sessStep s none = (s, none)) ∧
    (some f = s.file → s.pos ≤ size →
      s.pos ≤ (Codex.sessStep s (some (f, size))).1.pos) ∧
    (some f = s.file → size < s.pos →
      Codex.sessStep s (some (f, size)) =
        (⟨some f, size⟩, if 0 < size then some (0, size) else none)) ∧
    (some f ≠ s.file →
      Codex.sessStep s (some (f, size)) = (⟨some f, size⟩, none)) := by
  refine ⟨rfl, ?_, ?_, ?_⟩
  · intro hf hle
    simp only [Codex.sessStep, if_pos hf, if_neg (not_lt.mpr hle)]
    by_cases h : s.pos < size
    · simp only [if_pos h]
      exact hle
    · simp only [if_neg h]
      exact le_refl _
  · intro hf hlt
    simp only [Codex.sessStep, if_pos hf, if_pos hlt]
    by_cases h : 0 < size
    · simp [h]
    · have hz : size = 0 := by omega
      subst hz
      simp
  · intro hf
    simp only [Codex.sessStep, if_neg hf, lt_irrefl, if_false]

theorem session_offset_policy_witness :
    (8 : Nat) ≤ (Codex.sessStep ⟨some "a.jsonl", 8⟩
      (some ("a.jsonl", 20))).1.pos ∧
    Codex.sessStep ⟨some "a.jsonl", 8⟩ (some ("a.jsonl", 5)) =
      (⟨some "a.jsonl", 5⟩, some (0, 5)) ∧
    Codex.sessStep ⟨some "a.jsonl", 8⟩ (some ("b.jsonl", 20)) =
      (⟨some "b.jsonl", 20⟩, none) := by
  refine ⟨?_, ?_, ?_⟩
  · exact (session_offset_policy ⟨some "a.jsonl", 8⟩ "a.jsonl" 20).2.1
      rfl (by decide)
  · have h := (session_offset_policy ⟨some "a.jsonl", 8⟩ "a.jsonl" 5).2.2.1
      rfl (by decide)
    simpa using h
  · exact (session_offset_policy ⟨some "a.jsonl", 8⟩ "b.jsonl" 20).2.2.2
      (by decide)

/-- C9 counterexample: a liveness query that fails with `FileNotFoundError`
(missing tmux binary) propagates out of `is_pane_dead` instead of being
treated as "not dead", refuting "any failure of the query … returns false
rather than raising". -/
theorem pane_dead_fail_open_cx :
    is_pane_dead QueryOutcome.fileNotFound = .error () ∧
    is_pane_dead QueryOutcome.fileNotFound ≠ .ok false := by
  refine ⟨rfl, fun h => Except.noConfusion h⟩

/-- C9 (amended): `is_pane_dead` returns true only when the liveness query
succeeds and its trimmed output reports the pane dead; a query failing with a
non-zero exit status (`CalledProcessError`) returns false, but a
`FileNotFoundError` propagates as an exception. -/
theorem pane_dead_query_handling (out : String) :
    (is_pane_dead (QueryOutcome.ok out) = .ok (strTrim out == "1")) ∧
    (is_pane_dead QueryOutcome.calledProcessError = .ok false) ∧
    (is_pane_dead QueryOutcome.fileNotFound = .error ()) ∧
    (∀ q, is_pane_dead q = .ok true →
      ∃ o, q = QueryOutcome.ok o ∧ (strTrim o == "1") = true) := by
  refine ⟨rfl, rfl, rfl, ?_⟩
  intro q h
  cases q with
  | ok o =>
    simp only [is_pane_dead, Except.ok.injEq] at h
    exact ⟨o, rfl, h⟩
  | calledProcessError =>
    simp only [is_pane_dead, Except.ok.injEq] at h
    exact absurd h (by decide)
  | fileNotFound => exact Except.noConfusion h

theorem pane_dead_query_handling_witness :
    ∃ o, QueryOutcome.ok "1" = QueryOutcome.ok o ∧ (strTrim o == "1") = true :=
  (pane_dead_query_handling "x").2.2.2 (QueryOutcome.ok "1") rfl

/-- C10: in the layered strategy's pane-text source, a poll that captures
output not containing the interrupt-hint marker while the marker has not been
seen since the last marker-driven idle transition sets Idle immediately on
that poll; the inactivity wait applies only when the marker was previously
seen and then disappeared: with the marker seen, the first marker-free poll
only starts the timer, a poll before the timeout leaves the state unchanged,
and a poll at or past the timeout declares Idle and clears the marker flag;
a poll containing the marker sets Active and the marker flag. -/
theorem tmux_marker_idle (stripA : String → String) (now t : ℚ)
    (s : Codex.TmuxMonState) (output : String) :
    (Codex.containsSub (Codex.strLower (stripA output)) "esc to interrupt" = false →
      s.markerSeen = false →
      (Codex.monitorTmuxStep stripA now s (.captured output)).1.isIdle = true ∧
      (Codex.monitorTmuxStep stripA now s (.captured output)).2 = true) ∧
    (Codex.containsSub (Codex.strLower (stripA output)) "esc to interrupt" = false →
      s.markerSeen = true → s.missingSince = none →
      (Codex.monitorTmuxStep stripA now s (.captured output)).1.isIdle =
        s.isIdle ∧
      (Codex.monitorTmuxStep stripA now s
        (.captured output)).1.missingSince = some now) ∧
    (Codex.containsSub (Codex.strLower (stripA output)) "esc to interrupt" = false →
      s.markerSeen = true → s.missingSince = some t → now - t < 2 →
      (Codex.monitorTmuxStep stripA now s (.captured output)).1.isIdle =
        s.isIdle) ∧
    (Codex.containsSub (Codex.strLower (stripA output)) "esc to interrupt" = false →
      s.markerSeen = true → s.missingSince = some t → 2 ≤ now - t →
      (Codex.monitorTmuxStep stripA now s (.captured output)).1.isIdle = true ∧
      (Codex.monitorTmuxStep stripA now s
        (.captured output)).1.markerSeen = false) ∧
    (Codex.containsSub (Codex.strLower (stripA output)) "esc to interrupt" = true →
      (Codex.monitorTmuxStep stripA now s (.captured output)).1.isIdle =
        false ∧
      (Codex.monitorTmuxStep stripA now s
        (.captured output)).1.markerSeen = true) := by
  refine ⟨?_, ?_, ?_, ?_, ?_⟩
  · intro hc hm
    simp [Codex.monitorTmuxStep, hc, hm]
  · intro hc hm hms
    simp [Codex.monitorTmuxStep, hc, hm, hms]
  · intro hc hm hms ht
    simp [Codex.monitorTmuxStep, hc, hm, hms, not_le.mpr ht]
  · intro hc hm hms ht
    simp [Codex.monitorTmuxStep, hc, hm, hms, ht]
  · intro hc
    simp [Codex.monitorTmuxStep, hc]

theorem tmux_marker_idle_witness :
    (Codex.monitorTmuxStep id 10 ⟨false, false, none, 0, ""⟩
      (.captured "waiting for input")).1.isIdle = true ∧
    (Codex.monitorTmuxStep id 10 ⟨false, true, some 9, 0, ""⟩
      (.captured "waiting for input")).1.isIdle = false ∧
    (Codex.monitorTmuxStep id 10 ⟨false, true, some 8, 0, ""⟩
      (.captured "waiting for input")).1.isIdle = true ∧
    (Codex.monitorTmuxStep id 10 ⟨true, false, none, 0, ""⟩
      (.captured "Esc to interrupt")).1.isIdle = false := by
  refine ⟨?_, ?_, ?_, ?_⟩
  · exact ((tmux_marker_idle id 10 0 ⟨false, false, none, 0, ""⟩
      "waiting for input").1 (by decide) rfl).1
  · exact (tmux_marker_idle id 10 9 ⟨false, true, some 9, 0, ""⟩
      "waiting for input").2.2.1 (by decide) rfl rfl (by norm_num)
  · exact ((tmux_marker_idle id 10 8 ⟨false, true, some 8, 0, ""⟩
      "waiting for input").2.2.2.1 (by decide) rfl rfl (by norm_num)).1
  · exact ((tmux_marker_idle id 10 0 ⟨true, false, none, 0, ""⟩
      "Esc to interrupt").2.2.2.2 (by decide)).1

end AgentArcade
